import Mathlib

/-!  Shallow embedding of the NMEA-0183 sentence decoding and measurement-registry
engine of `custom_components/smart0183serial/sensor.py` (SmartBoatInnovations /
ha-smart0183serial).

Modelling conventions:
* Python `str` is Lean `String` (a wrapper around `List Char`); the Python string
  operations used by the source (`split(',')`, slicing, `replace`, `upper`,
  `strip`, `startswith`, `in`, f-string concatenation) are embedded as
  executable functions on the character list.
* Python `dict` objects (`hass.data[...]`) are association lists
  `List (String × α)` with `dictGet` / `dictInsert`.
* `datetime.now()` is passed in explicitly as a `now : Nat` timestamp counted in
  seconds; `timedelta(seconds=5)` is `5`, `timedelta(minutes=4)` is `240`.
* Python float arithmetic of the coordinate converters is modelled exactly over
  `ℚ`; `int(s)` / `float(s)` are `Option`-valued parsers whose `none` models the
  raised `ValueError`, and `round(x, 6)` is rounding to 6 decimal places.
* A raised exception escaping a modelled function is an `Option`-`none` (for
  `decimal_sensor`) or the `.err` constructor of `StepResult` (for the per-field
  loop of `set_smart_sensors`, whose outer `except` clauses swallow the error,
  keeping all mutations made so far).
-/

namespace SmartBoat

/-- Association-list model of a Python `dict` read (`d.get(k)` / `k in d`). -/
def dictGet {α : Type} (l : List (String × α)) (k : String) : Option α :=
  match l with
  | [] => none
  | (k', v) :: rest => if k = k' then some v else dictGet rest k

/-- Association-list model of a Python `dict` write `d[k] = v`. -/
def dictInsert {α : Type} (l : List (String × α)) (k : String) (v : α) :
    List (String × α) :=
  match l with
  | [] => [(k, v)]
  | (k', v') :: rest =>
    if k = k' then (k, v) :: rest else (k', v') :: dictInsert rest k v

/-- Python `s.upper()` (the unit hints in the schema are ASCII). -/
def pyUpper (s : String) : String := String.mk (s.data.map Char.toUpper)

/-- Python `s.lower()`. -/
def pyLower (s : String) : String := String.mk (s.data.map Char.toLower)

/-- Python `s.strip()`. -/
def pyStrip (s : String) : String :=
  String.mk
    (((s.data.dropWhile Char.isWhitespace).reverse.dropWhile Char.isWhitespace).reverse)

/-- Python `s.startswith(p)`, on character lists. -/
def listHasPre (p l : List Char) : Bool :=
  match p, l with
  | [], _ => true
  | _ :: _, [] => false
  | a :: ps, b :: ls => a == b && listHasPre ps ls

/-- Python `p in s` (substring containment), on character lists. -/
def listHasSub (p : List Char) : List Char → Bool
  | [] => p.isEmpty
  | c :: ls => listHasPre p (c :: ls) || listHasSub p ls

/-- Python `p in s` for strings. -/
def hasSub (p s : String) : Bool := listHasSub p.data s.data

/-- Helper for `splitComma`: accumulates the current token (reversed). -/
def splitCommaAux : List Char → List Char → List String
  | acc, [] => [String.mk acc.reverse]
  | acc, c :: rest =>
    if c = ',' then String.mk acc.reverse :: splitCommaAux [] rest
    else splitCommaAux (c :: acc) rest

/-- Python `line.split(',')` (note `"".split(',') == [""]`). -/
def splitComma (s : String) : List String := splitCommaAux [] s.data

/-- True iff every character is an ASCII decimal digit (Python `str.isdigit`
restricted to the ASCII digits that occur in NMEA sentences). -/
def allDigits (l : List Char) : Bool := l.all Char.isDigit

/-- Numeric value of a list of decimal digit characters. -/
def digitsVal (l : List Char) : Nat :=
  l.foldl (fun a c => 10 * a + (c.toNat - 48)) 0

/-- Python `int(s)`: optional sign followed by decimal digits; `none` models the
raised `ValueError` on non-numeric input. -/
def pyInt (s : String) : Option Int :=
  match s.data with
  | [] => none
  | '-' :: rest =>
    if (!rest.isEmpty) && allDigits rest then some (-(digitsVal rest : Int))
    else none
  | '+' :: rest =>
    if (!rest.isEmpty) && allDigits rest then some (digitsVal rest : Int)
    else none
  | l => if allDigits l then some (digitsVal l : Int) else none

/-- Lexical part of the unsigned Python `float(s)`: integer-part value,
fractional-part value and fractional length, over decimal digits with at most
one `.` (scientific notation is not used by NMEA feeds and is left out). -/
def pyFloatCore (l : List Char) : Option (Nat × Nat × Nat) :=
  if l.contains '.' then
    let ip := l.takeWhile (· ≠ '.')
    let fp := (l.dropWhile (· ≠ '.')).tail
    if fp.contains '.' then none
    else if allDigits ip && allDigits fp && (!ip.isEmpty || !fp.isEmpty) then
      some (digitsVal ip, digitsVal fp, fp.length)
    else none
  else if (!l.isEmpty) && allDigits l then some (digitsVal l, 0, 0) else none

/-- Lexical part of Python `float(s)`: sign and the unsigned parts. -/
def pyFloatParts (s : String) : Option (Bool × Nat × Nat × Nat) :=
  match s.data with
  | '-' :: rest => (pyFloatCore rest).map (fun p => (true, p))
  | '+' :: rest => (pyFloatCore rest).map (fun p => (false, p))
  | l => (pyFloatCore l).map (fun p => (false, p))

/-- Python `float(s)` as an exact rational; `none` models the raised
`ValueError`. -/
def pyFloat (s : String) : Option ℚ :=
  (pyFloatParts s).map fun p =>
    (if p.1 then -1 else 1) *
      ((p.2.1 : ℚ) + (p.2.2.1 : ℚ) / (10 ^ p.2.2.2 : ℚ))

/-- Python `round(x, 6)`: round to six decimal places. -/
def round6 (q : ℚ) : ℚ := (round (q * 1000000) : ℚ) / 1000000

/-- `translate_unit` of sensor.py (lines 151-164): `None` passes through,
otherwise the hint is upper-cased and sent through the fixed dictionary
`{'N': 'kn', 'K': 'kn', 'M': 'm/s'}`, whose `.get` default returns the
(upper-cased) hint itself. -/
def translate_unit (unit_of_measurement : Option String) : Option String :=
  match unit_of_measurement with
  | none => none
  | some u =>
    if pyUpper u = "N" then some "kn"
    else if pyUpper u = "K" then some "kn"
    else if pyUpper u = "M" then some "m/s"
    else some (pyUpper u)

/-- `convert_latitude` of sensor.py (lines 167-180): degrees from the first two
characters, minutes from the rest, `degrees + minutes/60`, negated for `'S'`,
rounded to 6 decimal places.  `none` models the exception raised by
`int`/`float` on non-numeric input. -/
def convert_latitude (lat_str : String) (direction : String) : Option ℚ := do
  let degrees ← pyInt (String.mk (lat_str.data.take 2))
  let minutes ← pyFloat (String.mk (lat_str.data.drop 2))
  let dd : ℚ := (degrees : ℚ) + minutes / 60
  let dd := if direction = "S" then -dd else dd
  pure (round6 dd)

/-- `convert_longitude` of sensor.py (lines 182-195): as `convert_latitude`
but three degree characters and negation for `'W'`. -/
def convert_longitude (lon_str : String) (direction : String) : Option ℚ := do
  let degrees ← pyInt (String.mk (lon_str.data.take 3))
  let minutes ← pyFloat (String.mk (lon_str.data.drop 3))
  let dd : ℚ := (degrees : ℚ) + minutes / 60
  let dd := if direction = "W" then -dd else dd
  pure (round6 dd)

/-- A Python value stored as a sensor state: the raw string of a sentence
field, or the rational produced by a GPS decimal conversion. -/
inductive PyVal where
  | str (s : String)
  | rat (q : ℚ)
deriving DecidableEq

/-- Python truthiness test `v is None or v == ""` used by `SmartSensor.__init__`
and `SmartSensor.set_state` (a float never equals `""`). -/
def isEmptyState (v : Option PyVal) : Bool :=
  match v with
  | none => true
  | some (.str s) => s = ""
  | some (.rat _) => false

/-- The mutable per-measurement state of a `SmartSensor` entity
(sensor.py lines 390-418). -/
structure SmartSensor where
  unique_id : String
  name : String
  state : Option PyVal
  group : String
  device_name : String
  sentence_type : String
  unit_of_measurement : Option String
  last_updated : Nat
  available : Bool
deriving DecidableEq

/-- `SmartSensor.__init__` (lines 401-418): derives the unique id from the
name, defaults the group to `"Other"`, stamps `last_updated = now` and marks
the sensor unavailable iff the initial state is `None` or `""`. -/
def SmartSensor.init (name friendly_name : String) (initial_state : Option PyVal)
    (group : Option String) (unit_of_measurement : Option String)
    (device_name sentence_type : String) (now : Nat) : SmartSensor :=
  let uid := String.mk ((pyLower name).data.map (fun c => if c = ' ' then '_' else c))
  { unique_id := uid
    name := if friendly_name ≠ "" then friendly_name else uid
    state := initial_state
    group := group.getD "Other"
    device_name := device_name
    sentence_type := sentence_type
    unit_of_measurement := unit_of_measurement
    last_updated := now
    available := !isEmptyState initial_state }

/-- `SmartSensor.set_state` (lines 489-498): overwrite the value, recompute
availability from the null/empty rule and stamp `last_updated = now`. -/
def SmartSensor.set_state (s : SmartSensor) (new_state : Option PyVal) (now : Nat) :
    SmartSensor :=
  { s with
    state := new_state
    available := !isEmptyState new_state
    last_updated := now }

/-- `SmartSensor.update_availability` (lines 472-477):
`available = (now - last_updated) < 4 minutes`. -/
def SmartSensor.update_availability (s : SmartSensor) (now : Nat) : SmartSensor :=
  { s with available := decide (now - s.last_updated < 240) }

/-- The body of the `update_sensor_availability` loop (lines 51-61): one sweep
over every sensor of the registry. -/
def update_sensor_availability (created_sensors : List (String × SmartSensor))
    (now : Nat) : List (String × SmartSensor) :=
  created_sensors.map (fun kv => (kv.1, kv.2.update_availability now))

/-- One entry of `result_dict` built in `async_setup_entry` (lines 108-122)
from `Smart0183serial.json`, keyed by the field `unique_id`
(`"{sentenceType}_{fieldIndex}"`). -/
structure SensorInfo where
  full_description : String
  group : String
  sentence_description : String
  unit_of_measurement : Option String
deriving DecidableEq

/-- The mutable `hass.data` state that `set_smart_sensors` reads and writes:
the registry of created sensors and the GPS-conversion side table. -/
structure HassData where
  created_sensors : List (String × SmartSensor)
  gps : List (String × String)
deriving DecidableEq

/-- Result of one iteration of the field loop of `set_smart_sensors`:
`.ok` continues with the next field, `.err` models an exception escaping the
iteration into the catch-all handlers (lines 380-385), which abort the
remaining fields but keep all mutations made so far. -/
inductive StepResult where
  | ok (d : HassData)
  | err (d : HassData)
deriving DecidableEq

/-- The `hass.data` state carried by either constructor. -/
def StepResult.state : StepResult → HassData
  | .ok d => d
  | .err d => d

/-- Decimal digits of `n`, least significant first, with explicit fuel so that
the kernel can evaluate it (`fuel ≥ 1` with `n < 10 ^ fuel` suffices). -/
def natDigitsRev (fuel n : Nat) : List Char :=
  match fuel with
  | 0 => []
  | fuel + 1 =>
    if n < 10 then [Char.ofNat (48 + n)]
    else Char.ofNat (48 + n % 10) :: natDigitsRev fuel (n / 10)

/-- Python `str(n)` for a natural number (decimal rendering, as produced by the
f-strings building sensor keys). -/
def natRepr (n : Nat) : String := String.mk (natDigitsRev (n + 1) n).reverse

/-- The registry key `f"{device_id}_{sentence_type}_{idx}"` of line 296. -/
def sensor_name_of (device_id sentence_type : String) (idx : Nat) : String :=
  device_id ++ "_" ++ sentence_type ++ "_" ++ natRepr idx

/-- The catalog key `f"{sentence_id[2:]}_{idx}"` of line 307. -/
def short_sensor_name_of (sentence_type : String) (idx : Nat) : String :=
  sentence_type ++ "_" ++ natRepr idx

/-- The create-or-update of the `_decimal` sensor at the end of
`decimal_sensor` (lines 238-259). -/
def decimal_upsert (sensor_name full_desc : String) (decimal_value : ℚ)
    (group device_name sentence_type : String) (now : Nat) (data : HassData) :
    HassData :=
  let decimal_sensor_name := sensor_name ++ "_decimal"
  match dictGet data.created_sensors decimal_sensor_name with
  | some ds =>
    { data with
      created_sensors := dictInsert data.created_sensors decimal_sensor_name
        (ds.set_state (some (.rat decimal_value)) now) }
  | none =>
    let decimal_desc := full_desc ++ " Decimal Coversion"
    let ds := SmartSensor.init decimal_sensor_name decimal_desc
      (some (.rat decimal_value)) (some group) (some "°") device_name
      sentence_type now
    { data with
      created_sensors := dictInsert data.created_sensors decimal_sensor_name ds }

/-- `decimal_sensor` of sensor.py (lines 198-259).  The compass index is the
last character of the GPS unit hint (`int(unit_of_measurement[-1])`, whose
`ValueError` on a non-digit escapes the function and is modelled by `none`);
out-of-bounds index, unsupported hint and conversion failure all return with
the state unchanged (the conversion error is caught at lines 234-236). -/
def decimal_sensor (sensor_name full_desc field_data unit_of_measurement : String)
    (fields : List String) (group device_name sentence_type : String)
    (now : Nat) (data : HassData) : Option HassData :=
  match unit_of_measurement.data.getLast? with
  | none => none
  | some c =>
    if !c.isDigit then none
    else
      let compass_field_idx := c.toNat - 48
      if fields.length ≤ compass_field_idx then some data
      else
        let compass_direction := pyStrip (fields.getD compass_field_idx "")
        if hasSub "GPSLAT" unit_of_measurement then
          match convert_latitude field_data compass_direction with
          | none => some data
          | some decimal_value =>
            some (decimal_upsert sensor_name full_desc decimal_value group
              device_name sentence_type now data)
        else if hasSub "GPSLON" unit_of_measurement then
          match convert_longitude field_data compass_direction with
          | none => some data
          | some decimal_value =>
            some (decimal_upsert sensor_name full_desc decimal_value group
              device_name sentence_type now data)
        else some data

/-- The tail of one field-loop iteration (lines 361-377): if the sensor is in
the GPS side table, run `decimal_sensor` on the current field list; an
exception escaping it aborts the surrounding loop (`.err`). -/
def gps_phase (sensor_name full_desc field_data : String) (fields : List String)
    (group device_name sentence_type : String) (now : Nat) (data : HassData) :
    StepResult :=
  match dictGet data.gps sensor_name with
  | none => .ok data
  | some unit_of_measurement =>
    match decimal_sensor sensor_name full_desc field_data unit_of_measurement
        fields group device_name sentence_type now data with
    | none => .err data
    | some d => .ok d

/-- The `"#x"` cross-reference resolution of lines 320-328: `some u` is the
resolved unit hint, `none` models the `continue` on an out-of-bounds
reference index. -/
def resolve_uom (uom : Option String) (fields : List String) :
    Option (Option String) :=
  match uom with
  | none => some none
  | some u =>
    if listHasPre ['#'] u.data && (!(u.data.drop 1).isEmpty)
        && allDigits (u.data.drop 1) then
      let reference_idx := digitsVal (u.data.drop 1)
      if 1 ≤ reference_idx ∧ reference_idx < fields.length then
        some (translate_unit (some (fields.getD reference_idx "")))
      else none
    else some (some u)

/-- One iteration of the field loop of `set_smart_sensors` (lines 291-377) for
field index `idx`.  A missing catalog entry or an out-of-bounds `#x` reference
skips the field (`continue`); otherwise the sensor is created (registering a
GPS hint when the unit starts with `"GPS"`) or updated via `set_state`, and the
GPS decimal phase runs.  In the update branch the local `full_desc`, `group`
and `device_name` keep their reset values `""` (lines 299-302). -/
def process_field (catalog : List (String × SensorInfo)) (fields : List String)
    (device_id sentence_type : String) (now : Nat) (data : HassData)
    (idx : Nat) : StepResult :=
  let field_data := fields.getD idx ""
  let sensor_name := sensor_name_of device_id sentence_type idx
  match dictGet data.created_sensors sensor_name with
  | some sensor =>
    let data' : HassData :=
      { data with
        created_sensors := dictInsert data.created_sensors sensor_name
          (sensor.set_state (some (.str field_data)) now) }
    gps_phase sensor_name "" field_data fields "" "" sentence_type now data'
  | none =>
    match dictGet catalog (short_sensor_name_of sentence_type idx) with
    | none => .ok data
    | some sensor_info =>
      match resolve_uom sensor_info.unit_of_measurement fields with
      | none => .ok data
      | some unit_of_measurement =>
        let device_name := sensor_info.sentence_description ++ " (" ++ device_id ++ ")"
        let isGps :=
          match unit_of_measurement with
          | some u => listHasPre ['G', 'P', 'S'] u.data
          | none => false
        let unit := if isGps then some "°" else unit_of_measurement
        let gps' :=
          if isGps then dictInsert data.gps sensor_name (unit_of_measurement.getD "")
          else data.gps
        let sensor := SmartSensor.init sensor_name sensor_info.full_description
          (some (.str field_data)) (some sensor_info.group) unit device_name
          sentence_type now
        let data' : HassData :=
          { created_sensors := dictInsert data.created_sensors sensor_name sensor
            gps := gps' }
        gps_phase sensor_name sensor_info.full_description field_data fields
          sensor_info.group device_name sentence_type now data'

/-- The field loop of `set_smart_sensors` over a list of field indices; an
`.err` aborts the remaining iterations but keeps the state mutated so far. -/
def process_fields (catalog : List (String × SensorInfo)) (fields : List String)
    (device_id sentence_type : String) (now : Nat) (data : HassData) :
    List Nat → HassData
  | [] => data
  | idx :: rest =>
    match process_field catalog fields device_id sentence_type now data idx with
    | .ok d => process_fields catalog fields device_id sentence_type now d rest
    | .err d => d

/-- The checksum rewrite of lines 269-270: if a `*` occurs within the final 3
characters, every `*` there is replaced by `,` so that the checksum becomes a
separate field. -/
def checksum_split (line : String) : String :=
  let tail3 := line.data.drop (line.data.length - 3)
  if tail3.contains '*' then
    String.mk (line.data.take (line.data.length - 3)
      ++ tail3.map (fun c => if c = '*' then ',' else c))
  else line

/-- The comma-separated fields of a line after the checksum rewrite
(lines 269-273). -/
def sentence_fields (line : String) : List String :=
  splitComma (checksum_split line)

/-- `sentence_id = fields[0][1:6]` (line 278). -/
def sentence_id_of (fields : List String) : List Char :=
  ((fields.headD "").data.drop 1).take 5

/-- `device_id = sentence_id[0:2]` (line 279). -/
def device_id_of (fields : List String) : String :=
  String.mk ((sentence_id_of fields).take 2)

/-- `sentence_type = sentence_id[2:]` (line 295). -/
def sentence_type_of (fields : List String) : String :=
  String.mk ((sentence_id_of fields).drop 2)

/-- `set_smart_sensors` of sensor.py (lines 262-385): guard clauses, checksum
split, comma split, sentence/device id extraction, then the field loop over
indices `1 .. len(fields) - 2` (the final field — the check digit — is skipped
by the `break` at line 292). -/
def set_smart_sensors (catalog : List (String × SensorInfo)) (line : String)
    (now : Nat) (data : HassData) : HassData :=
  if line = "" then data
  else if !listHasPre ['$'] line.data then data
  else
    let fields := sentence_fields line
    if fields.length < 1 then data
    else if (fields.headD "").data.length < 6 then data
    else
      process_fields catalog fields (device_id_of fields) (sentence_type_of fields)
        now data (List.range' 1 (fields.length - 2))

/-- The per-line throttle of `SerialSensor.serial_read` (lines 579-634): the
sentence type is `line[:6]`; the line is processed (and the per-type timestamp
updated) iff the type is unseen or at least `min_interval = 5` seconds old. -/
def serial_read_throttle (last_processed : List (String × Nat)) (line : String)
    (now : Nat) : Bool × List (String × Nat) :=
  let sentence_type := String.mk (line.data.take 6)
  match dictGet last_processed sentence_type with
  | none => (true, dictInsert last_processed sentence_type now)
  | some last =>
    if 5 ≤ now - last then (true, dictInsert last_processed sentence_type now)
    else (false, last_processed)

/-- The fields of a `SmartSensor` that `set_state` never touches: everything
except the value, the availability flag and the update timestamp. -/
def descrEq (a b : SmartSensor) : Prop :=
  a.unique_id = b.unique_id ∧ a.name = b.name ∧ a.group = b.group ∧
  a.unit_of_measurement = b.unit_of_measurement ∧
  a.device_name = b.device_name ∧ a.sentence_type = b.sentence_type

instance (a b : SmartSensor) : Decidable (descrEq a b) := by
  unfold descrEq; infer_instance

/-! ### General lemmas about the embedding -/

theorem data_append (a b : String) : (a ++ b).data = a.data ++ b.data := rfl

theorem string_eq_of_data (s t : String) (h : s.data = t.data) : s = t := by
  cases s; cases t; exact congrArg String.mk h

theorem dictGet_dictInsert {α : Type} (l : List (String × α)) (k k' : String)
    (v : α) :
    dictGet (dictInsert l k v) k' = if k' = k then some v else dictGet l k' := by
  induction l with
  | nil => simp [dictGet, dictInsert]
  | cons kv rest ih =>
    obtain ⟨k0, v0⟩ := kv
    simp only [dictInsert]
    by_cases h1 : k = k0
    · subst h1
      by_cases h2 : k' = k <;> simp [dictGet, h2]
    · simp only [if_neg h1, dictGet, ih]
      by_cases h2 : k' = k0
      · subst h2
        simp [show ¬(k' = k) from fun h => h1 h.symm]
      · simp [h2]

theorem dictGet_dictInsert_self {α : Type} (l : List (String × α)) (k : String)
    (v : α) : dictGet (dictInsert l k v) k = some v := by
  simp [dictGet_dictInsert]

theorem dictGet_dictInsert_ne {α : Type} (l : List (String × α)) {k k' : String}
    (v : α) (h : k' ≠ k) : dictGet (dictInsert l k v) k' = dictGet l k' := by
  simp [dictGet_dictInsert, h]

theorem digitsVal_append_last (l : List Char) (c : Char) :
    digitsVal (l ++ [c]) = 10 * digitsVal l + (c.toNat - 48) := by
  simp [digitsVal, List.foldl_append]

theorem digitChar_toNat (m : Nat) (h : m < 10) :
    (Char.ofNat (48 + m)).toNat = 48 + m := by
  interval_cases m <;> decide

theorem digitChar_isDigit (m : Nat) (h : m < 10) :
    (Char.ofNat (48 + m)).isDigit = true := by
  interval_cases m <;> decide

theorem natDigitsRev_ne_nil (fuel n : Nat) (h : 1 ≤ fuel) :
    natDigitsRev fuel n ≠ [] := by
  match fuel with
  | f + 1 =>
    simp only [natDigitsRev]
    split <;> simp

theorem natDigitsRev_head (fuel n : Nat) (h : 1 ≤ fuel) :
    ∃ d, d < 10 ∧ (natDigitsRev fuel n).head? = some (Char.ofNat (48 + d)) := by
  match fuel with
  | f + 1 =>
    simp only [natDigitsRev]
    split
    · exact ⟨n, by omega, rfl⟩
    · exact ⟨n % 10, Nat.mod_lt _ (by omega), rfl⟩

theorem digitsVal_natDigitsRev (fuel : Nat) :
    ∀ n, n < 10 ^ fuel → digitsVal (natDigitsRev fuel n).reverse = n := by
  induction fuel with
  | zero =>
    intro n h
    simp only [pow_zero] at h
    interval_cases n
    simp [natDigitsRev, digitsVal]
  | succ f ih =>
    intro n h
    simp only [natDigitsRev]
    split
    · rename_i h10
      have := digitChar_toNat n h10
      simp [digitsVal, this]
    · rename_i h10
      push_neg at h10
      rw [List.reverse_cons, digitsVal_append_last,
        ih (n / 10) (by
          rw [Nat.div_lt_iff_lt_mul (by omega)]
          calc n < 10 ^ (f + 1) := h
          _ = 10 ^ f * 10 := by rw [pow_succ]),
        digitChar_toNat (n % 10) (Nat.mod_lt _ (by omega))]
      omega

theorem digitsVal_natRepr (n : Nat) : digitsVal (natRepr n).data = n := by
  have h : n < 10 ^ (n + 1) := by
    calc n < 10 ^ n := Nat.lt_pow_self (by omega) n
    _ ≤ 10 ^ (n + 1) := Nat.pow_le_pow_right (by omega) (by omega)
  simpa [natRepr] using digitsVal_natDigitsRev (n + 1) n h

theorem natRepr_data_inj {a b : Nat} (h : (natRepr a).data = (natRepr b).data) :
    a = b := by
  have h2 := congrArg digitsVal h
  simpa [digitsVal_natRepr] using h2

theorem natRepr_data_ne_nil (n : Nat) : (natRepr n).data ≠ [] := by
  simpa [natRepr] using natDigitsRev_ne_nil (n + 1) n (by omega)

theorem natRepr_getLast_digit (n : Nat) :
    ∃ c, (natRepr n).data.getLast? = some c ∧ c.isDigit = true := by
  obtain ⟨d, hd, hh⟩ := natDigitsRev_head (n + 1) n (by omega)
  exact ⟨Char.ofNat (48 + d),
    by simpa [natRepr, List.getLast?_reverse] using hh,
    digitChar_isDigit d hd⟩

theorem sensor_name_of_data (d t : String) (i : Nat) :
    (sensor_name_of d t i).data
      = (((d.data ++ ['_']) ++ t.data) ++ ['_']) ++ (natRepr i).data := by
  simp only [sensor_name_of, data_append]

theorem sensor_name_data_inj {d t : String} {i j : Nat}
    (h : (sensor_name_of d t i).data = (sensor_name_of d t j).data) : i = j := by
  rw [sensor_name_of_data, sensor_name_of_data] at h
  exact natRepr_data_inj (List.append_cancel_left h)

theorem sensor_name_of_inj {d t : String} {i j : Nat}
    (h : sensor_name_of d t i = sensor_name_of d t j) : i = j :=
  sensor_name_data_inj (congrArg String.data h)

theorem sensor_name_getLast_digit (d t : String) (i : Nat) :
    ∃ c, (sensor_name_of d t i).data.getLast? = some c ∧ c.isDigit = true := by
  obtain ⟨c, hc, hdig⟩ := natRepr_getLast_digit i
  refine ⟨c, ?_, hdig⟩
  rw [sensor_name_of_data,
    List.getLast?_append_of_ne_nil _ (natRepr_data_ne_nil i)]
  exact hc

theorem decimal_name_getLast (s : String) :
    (s ++ "_decimal").data.getLast? = some 'l' := by
  rw [data_append,
    List.getLast?_append_of_ne_nil _ (by decide : ("_decimal" : String).data ≠ [])]
  decide

theorem sensor_name_ne_decimal (d t d' t' : String) (i j : Nat) :
    sensor_name_of d t i ≠ sensor_name_of d' t' j ++ "_decimal" := by
  intro h
  obtain ⟨c, hc, hdig⟩ := sensor_name_getLast_digit d t i
  rw [h, decimal_name_getLast] at hc
  rw [← Option.some.inj hc] at hdig
  exact absurd hdig (by decide)

theorem decimal_name_inj {d t : String} {i j : Nat}
    (h : sensor_name_of d t i ++ "_decimal" = sensor_name_of d t j ++ "_decimal") :
    i = j := by
  have h2 := congrArg String.data h
  rw [data_append, data_append] at h2
  exact sensor_name_data_inj (List.append_cancel_right h2)

/-! ### Frame and descriptor-preservation lemmas for the field loop -/

theorem descrEq_refl (m : SmartSensor) : descrEq m m := by
  simp [descrEq]

theorem descrEq_trans {a b c : SmartSensor} (h1 : descrEq a b) (h2 : descrEq b c) :
    descrEq a c := by
  obtain ⟨a1, a2, a3, a4, a5, a6⟩ := h1
  obtain ⟨b1, b2, b3, b4, b5, b6⟩ := h2
  exact ⟨a1.trans b1, a2.trans b2, a3.trans b3, a4.trans b4, a5.trans b5,
    a6.trans b6⟩

theorem set_state_descrEq (m : SmartSensor) (v : Option PyVal) (now : Nat) :
    descrEq m (m.set_state v now) := by
  simp [descrEq, SmartSensor.set_state]

theorem decimal_upsert_created_ne {sn fd : String} {v : ℚ} {g dn st : String}
    {now : Nat} {data : HassData} {k : String} (hk : k ≠ sn ++ "_decimal") :
    dictGet (decimal_upsert sn fd v g dn st now data).created_sensors k
      = dictGet data.created_sensors k := by
  simp only [decimal_upsert]
  split <;> simp [dictGet_dictInsert_ne _ _ hk]

theorem decimal_upsert_descr {sn fd : String} {v : ℚ} {g dn st : String}
    {now : Nat} {data : HassData} (k : String) (m : SmartSensor)
    (hm : dictGet data.created_sensors k = some m) :
    ∃ m', dictGet (decimal_upsert sn fd v g dn st now data).created_sensors k
      = some m' ∧ descrEq m m' := by
  by_cases hk : k = sn ++ "_decimal"
  · subst hk
    simp only [decimal_upsert, hm]
    exact ⟨m.set_state (some (.rat v)) now,
      dictGet_dictInsert_self _ _ _, set_state_descrEq m _ _⟩
  · exact ⟨m, (decimal_upsert_created_ne hk).trans hm, descrEq_refl m⟩

theorem decimal_sensor_created_ne {sn fd fdata uom : String}
    {fields : List String} {g dn st : String} {now : Nat} {data d' : HassData}
    (h : decimal_sensor sn fd fdata uom fields g dn st now data = some d')
    {k : String} (hk : k ≠ sn ++ "_decimal") :
    dictGet d'.created_sensors k = dictGet data.created_sensors k := by
  simp only [decimal_sensor] at h
  split at h
  · simp at h
  · split at h
    · simp at h
    · split at h
      · injection h with h2; subst h2; rfl
      · split at h
        · split at h
          · injection h with h2; subst h2; rfl
          · injection h with h2; subst h2
            exact decimal_upsert_created_ne hk
        · split at h
          · split at h
            · injection h with h2; subst h2; rfl
            · injection h with h2; subst h2
              exact decimal_upsert_created_ne hk
          · injection h with h2; subst h2; rfl

theorem decimal_sensor_descr {sn fd fdata uom : String} {fields : List String}
    {g dn st : String} {now : Nat} {data d' : HassData}
    (h : decimal_sensor sn fd fdata uom fields g dn st now data = some d')
    (k : String) (m : SmartSensor)
    (hm : dictGet data.created_sensors k = some m) :
    ∃ m', dictGet d'.created_sensors k = some m' ∧ descrEq m m' := by
  simp only [decimal_sensor] at h
  split at h
  · simp at h
  · split at h
    · simp at h
    · split at h
      · injection h with h2; subst h2; exact ⟨m, hm, descrEq_refl m⟩
      · split at h
        · split at h
          · injection h with h2; subst h2; exact ⟨m, hm, descrEq_refl m⟩
          · injection h with h2; subst h2
            exact decimal_upsert_descr k m hm
        · split at h
          · split at h
            · injection h with h2; subst h2; exact ⟨m, hm, descrEq_refl m⟩
            · injection h with h2; subst h2
              exact decimal_upsert_descr k m hm
          · injection h with h2; subst h2; exact ⟨m, hm, descrEq_refl m⟩

theorem gps_phase_created_ne {sn fd fdata : String} {fields : List String}
    {g dn st : String} {now : Nat} {data : HassData} {k : String}
    (hk : k ≠ sn ++ "_decimal") :
    dictGet ((gps_phase sn fd fdata fields g dn st now data).state).created_sensors k
      = dictGet data.created_sensors k := by
  unfold gps_phase
  split
  · rfl
  · split
    · rfl
    · rename_i d1 heq
      exact decimal_sensor_created_ne heq hk

theorem gps_phase_descr {sn fd fdata : String} {fields : List String}
    {g dn st : String} {now : Nat} {data : HassData} (k : String)
    (m : SmartSensor) (hm : dictGet data.created_sensors k = some m) :
    ∃ m', dictGet ((gps_phase sn fd fdata fields g dn st now data).state).created_sensors k
      = some m' ∧ descrEq m m' := by
  unfold gps_phase
  split
  · exact ⟨m, hm, descrEq_refl m⟩
  · split
    · exact ⟨m, hm, descrEq_refl m⟩
    · rename_i d1 heq
      exact decimal_sensor_descr heq k m hm

theorem process_field_created_ne {catalog : List (String × SensorInfo)}
    {fields : List String} {d t : String} {now : Nat} {data : HassData}
    {idx : Nat} {k : String}
    (h1 : k ≠ sensor_name_of d t idx)
    (h2 : k ≠ sensor_name_of d t idx ++ "_decimal") :
    dictGet ((process_field catalog fields d t now data idx).state).created_sensors k
      = dictGet data.created_sensors k := by
  simp only [process_field]
  split
  · rw [gps_phase_created_ne h2]
    exact dictGet_dictInsert_ne _ _ h1
  · split
    · rfl
    · split
      · rfl
      · rw [gps_phase_created_ne h2]
        exact dictGet_dictInsert_ne _ _ h1

theorem process_field_descr {catalog : List (String × SensorInfo)}
    {fields : List String} {d t : String} {now : Nat} {data : HassData}
    {idx : Nat} (k : String) (m : SmartSensor)
    (hm : dictGet data.created_sensors k = some m) :
    ∃ m', dictGet ((process_field catalog fields d t now data idx).state).created_sensors k
      = some m' ∧ descrEq m m' := by
  simp only [process_field]
  split
  · rename_i sensor hsensor
    by_cases hk : k = sensor_name_of d t idx
    · subst hk
      rw [hm] at hsensor
      injection hsensor with h3
      subst h3
      have hgp : ∃ m', dictGet ((gps_phase (sensor_name_of d t idx) ""
            (fields.getD idx "") fields "" "" t now
            { created_sensors := dictInsert data.created_sensors
                (sensor_name_of d t idx)
                (m.set_state (some (.str (fields.getD idx ""))) now)
              gps := data.gps }).state).created_sensors (sensor_name_of d t idx)
            = some m'
          ∧ descrEq (m.set_state (some (.str (fields.getD idx ""))) now) m' :=
        gps_phase_descr _ _ (dictGet_dictInsert_self _ _ _)
      obtain ⟨m', hm', hd'⟩ := hgp
      exact ⟨m', hm', descrEq_trans (set_state_descrEq m _ _) hd'⟩
    · exact gps_phase_descr k m ((dictGet_dictInsert_ne _ _ hk).trans hm)
  · rename_i hsensor
    split
    · exact ⟨m, hm, descrEq_refl m⟩
    · split
      · exact ⟨m, hm, descrEq_refl m⟩
      · have hk : k ≠ sensor_name_of d t idx := by
          intro hEq; rw [hEq, hsensor] at hm; exact Option.noConfusion hm
        exact gps_phase_descr k m ((dictGet_dictInsert_ne _ _ hk).trans hm)

theorem process_fields_created_ne (catalog : List (String × SensorInfo))
    (fields : List String) (d t : String) (now : Nat) :
    ∀ (idxs : List Nat) (data : HassData) (k : String),
    (∀ i ∈ idxs, k ≠ sensor_name_of d t i ∧ k ≠ sensor_name_of d t i ++ "_decimal") →
    dictGet (process_fields catalog fields d t now data idxs).created_sensors k
      = dictGet data.created_sensors k
  | [], _, _, _ => rfl
  | i :: rest, data, k, h => by
    obtain ⟨hi1, hi2⟩ := h i (List.mem_cons_self i rest)
    have hstep : dictGet ((process_field catalog fields d t now data i).state).created_sensors k
        = dictGet data.created_sensors k := process_field_created_ne hi1 hi2
    cases hr : process_field catalog fields d t now data i with
    | ok d1 =>
      rw [hr] at hstep
      simp only [process_fields, hr]
      rw [process_fields_created_ne catalog fields d t now rest d1 k
        (fun j hj => h j (List.mem_cons_of_mem i hj))]
      exact hstep
    | err d1 =>
      rw [hr] at hstep
      simp only [process_fields, hr]
      exact hstep

theorem process_fields_descr (catalog : List (String × SensorInfo))
    (fields : List String) (d t : String) (now : Nat) :
    ∀ (idxs : List Nat) (data : HassData) (k : String) (m : SmartSensor),
    dictGet data.created_sensors k = some m →
    ∃ m', dictGet (process_fields catalog fields d t now data idxs).created_sensors k
      = some m' ∧ descrEq m m'
  | [], _, _, m, hm => ⟨m, hm, descrEq_refl m⟩
  | i :: rest, data, k, m, hm => by
    have hstep : ∃ m1,
        dictGet ((process_field catalog fields d t now data i).state).created_sensors k
          = some m1 ∧ descrEq m m1 := process_field_descr k m hm
    obtain ⟨m1, hm1, hd1⟩ := hstep
    cases hr : process_field catalog fields d t now data i with
    | ok d1 =>
      rw [hr] at hm1
      obtain ⟨m2, hm2, hd2⟩ :=
        process_fields_descr catalog fields d t now rest d1 k m1 hm1
      exact ⟨m2, by simp only [process_fields, hr]; exact hm2,
        descrEq_trans hd1 hd2⟩
    | err d1 =>
      rw [hr] at hm1
      exact ⟨m1, by simp only [process_fields, hr]; exact hm1, hd1⟩

theorem process_field_skip {catalog : List (String × SensorInfo)}
    {fields : List String} {d t : String} {now : Nat} {data : HassData}
    {idx : Nat}
    (hcat : dictGet catalog (short_sensor_name_of t idx) = none)
    (habs : dictGet data.created_sensors (sensor_name_of d t idx) = none) :
    process_field catalog fields d t now data idx = .ok data := by
  simp only [process_field, habs, hcat]

theorem process_fields_absent (catalog : List (String × SensorInfo))
    (fields : List String) (d t : String) (now : Nat) (idx : Nat)
    (hcat : dictGet catalog (short_sensor_name_of t idx) = none) :
    ∀ (idxs : List Nat) (data : HassData),
    dictGet data.created_sensors (sensor_name_of d t idx) = none →
    dictGet (process_fields catalog fields d t now data idxs).created_sensors
        (sensor_name_of d t idx) = none
    ∧ dictGet (process_fields catalog fields d t now data idxs).created_sensors
        (sensor_name_of d t idx ++ "_decimal")
      = dictGet data.created_sensors (sensor_name_of d t idx ++ "_decimal")
  | [], _, habs => ⟨habs, rfl⟩
  | i :: rest, data, habs => by
    by_cases hi : i = idx
    · subst hi
      have hskip : process_field catalog fields d t now data i = .ok data :=
        process_field_skip hcat habs
      simp only [process_fields, hskip]
      exact process_fields_absent catalog fields d t now i hcat rest data habs
    · have h1 : sensor_name_of d t idx ≠ sensor_name_of d t i :=
        fun hEq => hi (sensor_name_of_inj hEq).symm
      have h2 : sensor_name_of d t idx ≠ sensor_name_of d t i ++ "_decimal" :=
        sensor_name_ne_decimal d t d t idx i
      have h3 : sensor_name_of d t idx ++ "_decimal" ≠ sensor_name_of d t i :=
        fun hEq => sensor_name_ne_decimal d t d t i idx hEq.symm
      have h4 : sensor_name_of d t idx ++ "_decimal"
          ≠ sensor_name_of d t i ++ "_decimal" :=
        fun hEq => hi (decimal_name_inj hEq).symm
      have hstep1 : dictGet ((process_field catalog fields d t now data i).state).created_sensors
          (sensor_name_of d t idx) = dictGet data.created_sensors (sensor_name_of d t idx) :=
        process_field_created_ne h1 h2
      have hstep2 : dictGet ((process_field catalog fields d t now data i).state).created_sensors
          (sensor_name_of d t idx ++ "_decimal")
          = dictGet data.created_sensors (sensor_name_of d t idx ++ "_decimal") :=
        process_field_created_ne h3 h4
      cases hr : process_field catalog fields d t now data i with
      | ok d1 =>
        rw [hr] at hstep1 hstep2
        have hrec := process_fields_absent catalog fields d t now idx hcat rest d1
          (hstep1.trans habs)
        simp only [process_fields, hr]
        exact ⟨hrec.1, hrec.2.trans hstep2⟩
      | err d1 =>
        rw [hr] at hstep1 hstep2
        simp only [process_fields, hr]
        exact ⟨hstep1.trans habs, hstep2⟩

/-! ### Lemmas about the comma split and the checksum rewrite -/

theorem splitCommaAux_append (xs : List Char) :
    ∀ (acc ys : List Char),
    splitCommaAux acc (xs ++ ',' :: ys) = splitCommaAux acc xs ++ splitCommaAux [] ys := by
  induction xs with
  | nil => intro acc ys; simp [splitCommaAux]
  | cons c rest ih =>
    intro acc ys
    by_cases hc : c = ','
    · subst hc; simp [splitCommaAux, ih]
    · simp [splitCommaAux, hc, ih]

theorem splitCommaAux_no_comma (l : List Char) :
    ∀ (acc : List Char), ¬ ',' ∈ l →
    splitCommaAux acc l = [String.mk (acc.reverse ++ l)] := by
  induction l with
  | nil => intro acc _; simp [splitCommaAux]
  | cons c rest ih =>
    intro acc h
    have hc : ¬ (c = ',') := fun hEq => h (by simp [hEq])
    have hr : ¬ ',' ∈ rest := fun hm => h (List.mem_cons_of_mem _ hm)
    simp [splitCommaAux, hc, ih (c :: acc) hr]

theorem sentence_fields_checksum (body : String) (c1 c2 : Char)
    (h1 : c1 ≠ ',') (h2 : c2 ≠ ',') (h3 : c1 ≠ '*') (h4 : c2 ≠ '*') :
    sentence_fields (body ++ String.mk ['*', c1, c2])
      = splitComma body ++ [String.mk [c1, c2]] := by
  have hdata : (body ++ String.mk ['*', c1, c2]).data = body.data ++ ['*', c1, c2] :=
    data_append body (String.mk ['*', c1, c2])
  unfold sentence_fields checksum_split
  rw [hdata]
  have hlen : (body.data ++ ['*', c1, c2]).length - 3 = body.data.length := by
    simp
  rw [hlen, List.drop_left, List.take_left,
    if_pos (by simp : (['*', c1, c2].contains '*') = true),
    show ['*', c1, c2].map (fun c => if c = '*' then ',' else c) = [',', c1, c2] by
      simp [h3, h4]]
  show splitCommaAux [] (body.data ++ ',' :: [c1, c2]) = _
  rw [splitCommaAux_append, splitCommaAux_no_comma [c1, c2] []
    (by simp [Ne.symm h1, Ne.symm h2])]
  rfl

/-! ### Concrete evaluations of the coordinate converters -/

theorem round6_eq (q : ℚ) (z : ℤ)
    (h1 : (z : ℚ) ≤ q * 1000000 + 1 / 2) (h2 : q * 1000000 + 1 / 2 < z + 1) :
    round6 q = (z : ℚ) / 1000000 := by
  rw [round6, round_eq, Int.floor_eq_iff.mpr ⟨h1, h2⟩]

theorem convert_latitude_4916_N :
    convert_latitude "4916.45" "N" = some (49274167 / 1000000 : ℚ) := by
  simp only [convert_latitude,
    show pyInt (String.mk ("4916.45".data.take 2)) = some 49 from by decide,
    pyFloat,
    show pyFloatParts (String.mk ("4916.45".data.drop 2)) = some (false, 16, 45, 2)
      from by decide,
    Option.map_some', Option.some_bind, Option.bind_eq_bind,
    if_neg (show ¬("N" = "S") from by decide)]
  simp only [Option.pure_def, if_false, Bool.false_eq_true, one_mul]
  rw [round6_eq _ 49274167 (by norm_num) (by norm_num)]
  norm_num

theorem convert_latitude_4916_S :
    convert_latitude "4916.45" "S" = some (-(49274167 / 1000000) : ℚ) := by
  simp only [convert_latitude,
    show pyInt (String.mk ("4916.45".data.take 2)) = some 49 from by decide,
    pyFloat,
    show pyFloatParts (String.mk ("4916.45".data.drop 2)) = some (false, 16, 45, 2)
      from by decide,
    Option.map_some', Option.some_bind, Option.bind_eq_bind,
    if_pos (show "S" = "S" from rfl)]
  simp only [Option.pure_def, if_false, Bool.false_eq_true, one_mul]
  rw [round6_eq _ (-49274167) (by norm_num) (by norm_num)]
  norm_num

/-! ### The claims -/

/-- C1 counterexample: the claim states `convert_latitude("4916.45", 'N') =
49.274250`, but the code computes `49 + 16.45/60 = 49.2741666…`, which rounds
to `49.274167`, not `49.274250`. -/
theorem claimC1_counterexample :
    convert_latitude "4916.45" "N" ≠ some (49274250 / 1000000 : ℚ) := by
  rw [convert_latitude_4916_N]
  intro h
  injection h with h2
  norm_num at h2

/-- C1 (amended): `convert_latitude("4916.45", 'N') = 49.274167` and
`convert_latitude("4916.45", 'S') = -49.274167` — degrees from the first 2
characters, minutes from the remainder, `degrees + minutes/60`, negated for
`'S'`, rounded to 6 decimal places. -/
theorem claimC1_amended :
    convert_latitude "4916.45" "N" = some (49274167 / 1000000 : ℚ)
    ∧ convert_latitude "4916.45" "S" = some (-(49274167 / 1000000) : ℚ) :=
  ⟨convert_latitude_4916_N, convert_latitude_4916_S⟩

/-- C2 counterexample: the claim states every unit hint outside the table
passes through unchanged, but `translate_unit` upper-cases its argument first,
so `translate_unit("x") = "X" ≠ "x"`. -/
theorem claimC2_counterexample : translate_unit (some "x") ≠ some "x" := by
  decide

/-- C2 (amended): the translation table `{N→kn, K→kn, M→m/s}` is applied to the
upper-cased hint, and every hint outside the table passes through
*upper-cased* (hence unchanged only when already upper case):
`translate_unit("N") = translate_unit("n") = "kn"`, `translate_unit("K") = "kn"`,
`translate_unit("M") = "m/s"`, `translate_unit("X") = "X"`, and
`translate_unit(u) = u.upper()` whenever `u.upper()` is not in the table. -/
theorem claimC2_amended :
    translate_unit (some "N") = some "kn"
    ∧ translate_unit (some "K") = some "kn"
    ∧ translate_unit (some "M") = some "m/s"
    ∧ translate_unit (some "X") = some "X"
    ∧ translate_unit (some "n") = some "kn"
    ∧ ∀ u : String, pyUpper u ≠ "N" → pyUpper u ≠ "K" → pyUpper u ≠ "M" →
        translate_unit (some u) = some (pyUpper u) := by
  refine ⟨by decide, by decide, by decide, by decide, by decide, ?_⟩
  intro u hN hK hM
  simp [translate_unit, hN, hK, hM]

/-- C2 witness: an unmapped lower-case hint comes back upper-cased. -/
theorem claimC2_amended_witness :
    translate_unit (some "kg") = some (pyUpper "kg") :=
  claimC2_amended.2.2.2.2.2 "kg" (by decide) (by decide) (by decide)

/-- C3: both on creation (`__init__`) and on every `set_state`, the sensor is
marked unavailable iff the value is `None`/empty, and `last_updated` is set to
the current time; the same null/empty rule is applied in both places. -/
theorem claimC3 (name friendly_name : String) (v : Option PyVal)
    (group unit : Option String) (dev stype : String) (now : Nat)
    (s : SmartSensor) (v' : Option PyVal) (now' : Nat) :
    ((SmartSensor.init name friendly_name v group unit dev stype now).available = false
      ↔ isEmptyState v = true)
    ∧ (SmartSensor.init name friendly_name v group unit dev stype now).last_updated = now
    ∧ ((s.set_state v' now').available = false ↔ isEmptyState v' = true)
    ∧ (s.set_state v' now').last_updated = now' := by
  refine ⟨?_, rfl, ?_, rfl⟩ <;> simp [SmartSensor.init, SmartSensor.set_state]

/-- C4: the throttle keeps a per-sentence-type timestamp; a line passes (and
the stamp is updated to `now`) iff its type is unseen or at least 5 seconds
old, otherwise the state is unchanged; and for one type arriving at t=0, 3, 6
the results are processed, dropped, processed. -/
theorem claimC4 (lp : List (String × Nat)) (line : String) (now : Nat) :
    ((serial_read_throttle lp line now).1 = true
      ↔ dictGet lp (String.mk (line.data.take 6)) = none
        ∨ ∃ last, dictGet lp (String.mk (line.data.take 6)) = some last
            ∧ 5 ≤ now - last)
    ∧ ((serial_read_throttle lp line now).1 = true →
        (serial_read_throttle lp line now).2
          = dictInsert lp (String.mk (line.data.take 6)) now)
    ∧ ((serial_read_throttle lp line now).1 = false →
        (serial_read_throttle lp line now).2 = lp)
    ∧ (serial_read_throttle [] "$GPGGA,x" 0).1 = true
    ∧ (serial_read_throttle
        (serial_read_throttle [] "$GPGGA,x" 0).2 "$GPGGA,y" 3).1 = false
    ∧ (serial_read_throttle
        (serial_read_throttle
          (serial_read_throttle [] "$GPGGA,x" 0).2 "$GPGGA,y" 3).2
        "$GPGGA,z" 6).1 = true := by
  refine ⟨?_, ?_, ?_, by decide, by decide, by decide⟩
  · simp only [serial_read_throttle]
    cases hg : dictGet lp (String.mk (line.data.take 6)) with
    | none => simp
    | some last =>
      by_cases h5 : 5 ≤ now - last <;> simp [h5]
  · simp only [serial_read_throttle]
    cases hg : dictGet lp (String.mk (line.data.take 6)) with
    | none => intro _; rfl
    | some last =>
      by_cases h5 : 5 ≤ now - last
      · intro _; simp [h5]
      · intro hcon; simp [h5] at hcon
  · simp only [serial_read_throttle]
    cases hg : dictGet lp (String.mk (line.data.take 6)) with
    | none => intro hcon; simp at hcon
    | some last =>
      by_cases h5 : 5 ≤ now - last
      · intro hcon; simp [h5] at hcon
      · intro _; simp [h5]

/-- C4 witness: a first arrival passes and stamps its sentence type. -/
theorem claimC4_witness :
    (serial_read_throttle [] "$GPGGA,x" 0).2
      = dictInsert [] (String.mk (("$GPGGA,x" : String).data.take 6)) 0 :=
  (claimC4 [] "$GPGGA,x" 0).2.1 (by decide)

theorem dictGet_update_availability (reg : List (String × SmartSensor))
    (now : Nat) (k : String) :
    dictGet (update_sensor_availability reg now) k
      = (dictGet reg k).map (fun s => s.update_availability now) := by
  induction reg with
  | nil => rfl
  | cons kv rest ih =>
    obtain ⟨k0, s0⟩ := kv
    by_cases h : k = k0
    · simp [update_sensor_availability, dictGet, h]
    · simp only [update_sensor_availability, List.map_cons, dictGet, if_neg h]
      simpa [update_sensor_availability] using ih

/-- C5: one availability sweep maps every registered sensor to
`available = (now - last_updated) < 4 minutes`; a sensor last updated 5 minutes
ago becomes unavailable, one updated 1 minute ago stays available. -/
theorem claimC5 (reg : List (String × SmartSensor)) (now : Nat) (k : String)
    (s : SmartSensor) (hk : dictGet reg k = some s) :
    ∃ s', dictGet (update_sensor_availability reg now) k = some s'
      ∧ s'.available = decide (now - s.last_updated < 240)
      ∧ (s.last_updated + 300 = now → s'.available = false)
      ∧ (s.last_updated + 60 = now → s'.available = true) := by
  refine ⟨s.update_availability now, ?_, rfl, ?_, ?_⟩
  · rw [dictGet_update_availability, hk]; rfl
  · intro h
    have h2 : now - s.last_updated = 300 := by omega
    simp [SmartSensor.update_availability, h2]
  · intro h
    have h2 : now - s.last_updated = 60 := by omega
    simp [SmartSensor.update_availability, h2]

/-- C5 witness at a concrete registry: a sensor stamped at 700 swept at
t = 1000 (5 minutes later) goes unavailable. -/
theorem claimC5_witness :
    ∃ s', dictGet (update_sensor_availability
        [("k", SmartSensor.init "k" "f" (some (.str "v")) none none "d" "T" 700)]
        1000) "k" = some s'
      ∧ s'.available = decide (1000 -
          (SmartSensor.init "k" "f" (some (.str "v")) none none "d" "T" 700).last_updated
          < 240)
      ∧ ((SmartSensor.init "k" "f" (some (.str "v")) none none "d" "T" 700).last_updated
          + 300 = 1000 → s'.available = false)
      ∧ ((SmartSensor.init "k" "f" (some (.str "v")) none none "d" "T" 700).last_updated
          + 60 = 1000 → s'.available = true) :=
  claimC5 [("k", SmartSensor.init "k" "f" (some (.str "v")) none none "d" "T" 700)]
    1000 "k" (SmartSensor.init "k" "f" (some (.str "v")) none none "d" "T" 700)
    (by decide)

/-- C6: a field index whose `(sentenceType, fieldIndex)` pair has no catalog
entry is skipped: the loop iteration leaves the state unchanged and continues
(`.ok`), and after the whole line is processed no measurement exists under that
key and its `_decimal` companion is untouched. -/
theorem claimC6 (catalog : List (String × SensorInfo)) (line : String)
    (now : Nat) (data : HassData) (idx : Nat)
    (hcat : dictGet catalog
        (short_sensor_name_of (sentence_type_of (sentence_fields line)) idx) = none)
    (habs : dictGet data.created_sensors
        (sensor_name_of (device_id_of (sentence_fields line))
          (sentence_type_of (sentence_fields line)) idx) = none) :
    process_field catalog (sentence_fields line)
        (device_id_of (sentence_fields line))
        (sentence_type_of (sentence_fields line)) now data idx = .ok data
    ∧ dictGet (set_smart_sensors catalog line now data).created_sensors
        (sensor_name_of (device_id_of (sentence_fields line))
          (sentence_type_of (sentence_fields line)) idx) = none
    ∧ dictGet (set_smart_sensors catalog line now data).created_sensors
        (sensor_name_of (device_id_of (sentence_fields line))
          (sentence_type_of (sentence_fields line)) idx ++ "_decimal")
      = dictGet data.created_sensors
          (sensor_name_of (device_id_of (sentence_fields line))
            (sentence_type_of (sentence_fields line)) idx ++ "_decimal") := by
  refine ⟨process_field_skip hcat habs, ?_⟩
  simp only [set_smart_sensors]
  split
  · exact ⟨habs, rfl⟩
  · split
    · exact ⟨habs, rfl⟩
    · split
      · exact ⟨habs, rfl⟩
      · split
        · exact ⟨habs, rfl⟩
        · exact process_fields_absent catalog (sentence_fields line)
            (device_id_of (sentence_fields line))
            (sentence_type_of (sentence_fields line)) now idx hcat
            (List.range' 1 ((sentence_fields line).length - 2)) data habs

/-- C6 witness: with an empty catalog, field 1 of a processed line creates no
measurement. -/
theorem claimC6_witness :
    process_field [] (sentence_fields "$XXYYY,1,2*AB")
        (device_id_of (sentence_fields "$XXYYY,1,2*AB"))
        (sentence_type_of (sentence_fields "$XXYYY,1,2*AB")) 0 ⟨[], []⟩ 1
      = .ok ⟨[], []⟩
    ∧ dictGet (set_smart_sensors [] "$XXYYY,1,2*AB" 0 ⟨[], []⟩).created_sensors
        (sensor_name_of (device_id_of (sentence_fields "$XXYYY,1,2*AB"))
          (sentence_type_of (sentence_fields "$XXYYY,1,2*AB")) 1) = none
    ∧ dictGet (set_smart_sensors [] "$XXYYY,1,2*AB" 0 ⟨[], []⟩).created_sensors
        (sensor_name_of (device_id_of (sentence_fields "$XXYYY,1,2*AB"))
          (sentence_type_of (sentence_fields "$XXYYY,1,2*AB")) 1 ++ "_decimal")
      = dictGet (⟨[], []⟩ : HassData).created_sensors
          (sensor_name_of (device_id_of (sentence_fields "$XXYYY,1,2*AB"))
            (sentence_type_of (sentence_fields "$XXYYY,1,2*AB")) 1 ++ "_decimal") :=
  claimC6 [] "$XXYYY,1,2*AB" 0 ⟨[], []⟩ 1 (by decide) (by decide)

/-- C7: a `*` within the final 3 characters is rewritten to a comma before
splitting, so the checksum becomes its own trailing comma-separated field, and
the final field is always excluded from per-field processing: processing a line
never creates or updates a measurement keyed by the final field index (nor its
`_decimal` companion). -/
theorem claimC7 (catalog : List (String × SensorInfo)) (line : String)
    (now : Nat) (data : HassData) (body : String) (c1 c2 : Char)
    (h1 : c1 ≠ ',') (h2 : c2 ≠ ',') (h3 : c1 ≠ '*') (h4 : c2 ≠ '*') :
    sentence_fields (body ++ String.mk ['*', c1, c2])
      = splitComma body ++ [String.mk [c1, c2]]
    ∧ dictGet (set_smart_sensors catalog line now data).created_sensors
        (sensor_name_of (device_id_of (sentence_fields line))
          (sentence_type_of (sentence_fields line))
          ((sentence_fields line).length - 1))
      = dictGet data.created_sensors
          (sensor_name_of (device_id_of (sentence_fields line))
            (sentence_type_of (sentence_fields line))
            ((sentence_fields line).length - 1))
    ∧ dictGet (set_smart_sensors catalog line now data).created_sensors
        (sensor_name_of (device_id_of (sentence_fields line))
          (sentence_type_of (sentence_fields line))
          ((sentence_fields line).length - 1) ++ "_decimal")
      = dictGet data.created_sensors
          (sensor_name_of (device_id_of (sentence_fields line))
            (sentence_type_of (sentence_fields line))
            ((sentence_fields line).length - 1) ++ "_decimal") := by
  refine ⟨sentence_fields_checksum body c1 c2 h1 h2 h3 h4, ?_⟩
  simp only [set_smart_sensors]
  split
  · exact ⟨rfl, rfl⟩
  · split
    · exact ⟨rfl, rfl⟩
    · split
      · exact ⟨rfl, rfl⟩
      · split
        · exact ⟨rfl, rfl⟩
        · constructor
          · apply process_fields_created_ne
            intro i hi
            obtain ⟨hi1, hi2⟩ := List.mem_range'_1.mp hi
            constructor
            · intro hEq
              have := sensor_name_of_inj hEq
              omega
            · exact sensor_name_ne_decimal _ _ _ _ _ _
          · apply process_fields_created_ne
            intro i hi
            obtain ⟨hi1, hi2⟩ := List.mem_range'_1.mp hi
            constructor
            · intro hEq
              exact sensor_name_ne_decimal _ _ _ _ _ _ hEq.symm
            · intro hEq
              have := decimal_name_inj hEq
              omega

/-- C7 witness: on a concrete line the checksum is split off into its own
trailing field. -/
theorem claimC7_witness :
    sentence_fields ("$GPGGA,1,2" ++ String.mk ['*', '4', '7'])
      = splitComma "$GPGGA,1,2" ++ [String.mk ['4', '7']] :=
  (claimC7 [] "x" 0 ⟨[], []⟩ "$GPGGA,1,2" '4' '7'
    (by decide) (by decide) (by decide) (by decide)).1

/-- C8: when the GPS coordinate conversion fails on non-numeric input, the
exception is caught inside `decimal_sensor`: the state comes back unchanged —
no `_decimal` measurement is created or updated, no other measurement (in
particular the primary field sensor) is touched — and the field loop continues
(`.ok`). -/
theorem claimC8 (sn fd fdata uom : String) (fields : List String)
    (g dn st : String) (now : Nat) (data : HassData) (c : Char)
    (hlast : uom.data.getLast? = some c) (hdig : c.isDigit = true)
    (hidx : c.toNat - 48 < fields.length)
    (hlat : hasSub "GPSLAT" uom = true)
    (hconv : convert_latitude fdata (pyStrip (fields.getD (c.toNat - 48) "")) = none) :
    decimal_sensor sn fd fdata uom fields g dn st now data = some data
    ∧ (dictGet data.gps sn = some uom →
        gps_phase sn fd fdata fields g dn st now data = .ok data) := by
  have hds : decimal_sensor sn fd fdata uom fields g dn st now data = some data := by
    simp only [decimal_sensor, hlast, hdig, Bool.not_true, Bool.false_eq_true,
      if_false, if_neg (show ¬(fields.length ≤ c.toNat - 48) from by omega),
      hlat, if_true, hconv]
  exact ⟨hds, fun hg => by simp only [gps_phase, hg, hds]⟩

/-- C8 witness: a non-numeric latitude string aborts only the decimal
conversion, leaving the state unchanged and the loop continuing. -/
theorem claimC8_witness :
    decimal_sensor "s" "" "ABCD.EF" "GPSLAT3" ["$GPGLL", "ABCD.EF", "x", "N"]
        "" "" "GLL" 0 ⟨[], []⟩ = some ⟨[], []⟩
    ∧ (dictGet (⟨[], []⟩ : HassData).gps "s" = some "GPSLAT3" →
        gps_phase "s" "" "ABCD.EF" ["$GPGLL", "ABCD.EF", "x", "N"] "" "" "GLL" 0
          ⟨[], []⟩ = .ok ⟨[], []⟩) :=
  claimC8 "s" "" "ABCD.EF" "GPSLAT3" ["$GPGLL", "ABCD.EF", "x", "N"] "" "" "GLL"
    0 ⟨[], []⟩ '3' (by decide) (by decide) (by decide) (by decide) (by decide)

/-- C9: the availability sweep computes availability solely from the
`last_updated` recency and ignores the stored value: a sensor whose value is
null/empty (hence unavailable after its last set) but whose `last_updated` is
within 4 minutes of now is flipped back to available by one sweep. -/
theorem claimC9 (s : SmartSensor) (now : Nat)
    (_hval : s.state = none ∨ s.state = some (.str ""))
    (_hav : s.available = false)
    (hrecent : now - s.last_updated < 240) :
    (s.update_availability now).available = true
    ∧ (s.update_availability now).state = s.state
    ∧ ∀ s2 : SmartSensor, (s2.update_availability now).available
        = decide (now - s2.last_updated < 240) := by
  refine ⟨?_, rfl, fun s2 => rfl⟩
  simp [SmartSensor.update_availability, hrecent]

/-- C9 witness: an empty-valued, unavailable sensor last updated at t = 100 is
made available again by a sweep at t = 150. -/
theorem claimC9_witness :
    ((SmartSensor.init "u" "n" none (some "g") none "d" "T" 100).update_availability
        150).available = true
    ∧ ((SmartSensor.init "u" "n" none (some "g") none "d" "T" 100).update_availability
        150).state = (SmartSensor.init "u" "n" none (some "g") none "d" "T" 100).state
    ∧ ∀ s2 : SmartSensor, (s2.update_availability 150).available
        = decide (150 - s2.last_updated < 240) :=
  claimC9 (SmartSensor.init "u" "n" none (some "g") none "d" "T" 100) 150
    (Or.inl rfl) rfl (by decide)

/-- C10: an upsert of an existing key mutates only value, availability and
timestamp: `set_state` preserves the identifier, display name, group, unit,
device name and sentence type, and processing any line leaves those descriptor
fields of every already-registered key unchanged — the unit is resolved only
once, in the creation branch. -/
theorem claimC10 (catalog : List (String × SensorInfo)) (line : String)
    (now : Nat) (data : HassData) (k : String) (m : SmartSensor)
    (v : Option PyVal) (t' : Nat)
    (hm : dictGet data.created_sensors k = some m) :
    descrEq m (m.set_state v t')
    ∧ ∃ m', dictGet (set_smart_sensors catalog line now data).created_sensors k
        = some m' ∧ descrEq m m' := by
  refine ⟨set_state_descrEq m v t', ?_⟩
  simp only [set_smart_sensors]
  split
  · exact ⟨m, hm, descrEq_refl m⟩
  · split
    · exact ⟨m, hm, descrEq_refl m⟩
    · split
      · exact ⟨m, hm, descrEq_refl m⟩
      · split
        · exact ⟨m, hm, descrEq_refl m⟩
        · exact process_fields_descr catalog (sentence_fields line)
            (device_id_of (sentence_fields line))
            (sentence_type_of (sentence_fields line)) now
            (List.range' 1 ((sentence_fields line).length - 2)) data k m hm

/-- C10 witness: a registered key updated by a later sentence keeps its
descriptor fields. -/
theorem claimC10_witness :
    descrEq (SmartSensor.init "XX_YYY_1" "f" (some (.str "0")) (some "g")
        (some "u") "dev" "YYY" 0)
      ((SmartSensor.init "XX_YYY_1" "f" (some (.str "0")) (some "g")
        (some "u") "dev" "YYY" 0).set_state none 9)
    ∧ ∃ m', dictGet (set_smart_sensors [] "$XXYYY,42,x*AB" 5
          ⟨[("XX_YYY_1", SmartSensor.init "XX_YYY_1" "f" (some (.str "0"))
              (some "g") (some "u") "dev" "YYY" 0)], []⟩).created_sensors
        "XX_YYY_1" = some m'
      ∧ descrEq (SmartSensor.init "XX_YYY_1" "f" (some (.str "0")) (some "g")
          (some "u") "dev" "YYY" 0) m' :=
  claimC10 [] "$XXYYY,42,x*AB" 5
    ⟨[("XX_YYY_1", SmartSensor.init "XX_YYY_1" "f" (some (.str "0")) (some "g")
        (some "u") "dev" "YYY" 0)], []⟩
    "XX_YYY_1"
    (SmartSensor.init "XX_YYY_1" "f" (some (.str "0")) (some "g") (some "u")
      "dev" "YYY" 0)
    none 9 (by decide)

end SmartBoat
